import Mathlib

/-!
Shallow embedding of `src/main.py` (class `IMU`, an MPU-6500 driver with a
per-axis moving-average filter) and proofs of the specification's claims.

Modelling choices:
* Python floats are modelled as rationals (`ℚ`); every float computed on the
  accelerometer path here is a small dyadic rational, so the rational values
  coincide with the exact float values the code computes.
* The I2C bus (`machine.I2C`) is modelled as a `Transport` record of pure
  read/write functions returning `Except TransportError _`, mirroring that
  `readfrom_mem`/`writeto_mem` either produce bytes or raise an `OSError`.
* The dict-of-lists windows `{'X': [...], 'Y': [...], 'Z': [...]}` are
  modelled as a record `AxisWindows` indexed by the inductive `Axis`.
* The register constants set in `IMU.__init__` are compile-time constants in
  the source, embedded as top-level definitions.
-/

/-- The three axis keys `'X'`, `'Y'`, `'Z'` used by the window dicts. -/
inductive Axis where
  | X
  | Y
  | Z
deriving DecidableEq, Repr

/-- One dict `{'X': list, 'Y': list, 'Z': list}` of per-axis windows. -/
structure AxisWindows where
  X : List ℚ
  Y : List ℚ
  Z : List ℚ
deriving DecidableEq, Repr

/-- Dict lookup `window[axis]`. -/
def AxisWindows.get (w : AxisWindows) : Axis → List ℚ
  | Axis.X => w.X
  | Axis.Y => w.Y
  | Axis.Z => w.Z

/-- Dict assignment `window[axis] = l`. -/
def AxisWindows.set (w : AxisWindows) : Axis → List ℚ → AxisWindows
  | Axis.X, l => { w with X := l }
  | Axis.Y, l => { w with Y := l }
  | Axis.Z, l => { w with Z := l }

/-- Bus-level failure raised by the transport (models `OSError` from
`machine.I2C`), carrying an errno-style code. -/
structure TransportError where
  code : ℕ
deriving DecidableEq, Repr

/-- The I2C transport consumed by the driver: `readfrom_mem(addr, reg, 1)[0]`
is modelled as `read addr reg`, and `writeto_mem(addr, reg, bytes([b]))` as
`write addr reg b`. -/
structure Transport where
  read : ℕ → ℕ → Except TransportError ℕ
  write : ℕ → ℕ → ℕ → Except TransportError Unit

/-- `self.MPU6500_ADDR = 0x68`. -/
def MPU6500_ADDR : ℕ := 0x68

/-- `self.PWR_MGMT_1 = 0x6B`. -/
def PWR_MGMT_1 : ℕ := 0x6B

/-- `self.GYRO_CONFIG = 0x1B`. -/
def GYRO_CONFIG : ℕ := 0x1B

/-- `self.ACCEL_CONFIG = 0x1C`. -/
def ACCEL_CONFIG : ℕ := 0x1C

/-- `self.ACCEL_XOUT_H = 0x3B`. -/
def ACCEL_XOUT_H : ℕ := 0x3B

/-- `self.GYRO_XOUT_H = 0x43`. -/
def GYRO_XOUT_H : ℕ := 0x43

/-- `self.ACCEL_SCALE = 2.0 / 32768`. -/
def ACCEL_SCALE : ℚ := 2 / 32768

/-- `self.GYRO_SCALE = 250.0 / 32768`. -/
def GYRO_SCALE : ℚ := 250 / 32768

/-- The mutable state of an `IMU` instance (the transport itself is borrowed
and passed to each operation explicitly). -/
structure IMUState where
  N : ℕ
  ACCEL_SCALE : ℚ
  GYRO_SCALE : ℚ
  accel_window : AxisWindows
  gyro_window : AxisWindows
deriving DecidableEq, Repr

/-- `IMU._read_word(self, reg)`:
```
high = self.i2c.readfrom_mem(self.MPU6500_ADDR, reg, 1)[0]
low = self.i2c.readfrom_mem(self.MPU6500_ADDR, reg + 1, 1)[0]
val = (high << 8) + low
if val >= 0x8000:
    val -= 0x10000
return val
```
A raised `OSError` propagates, short-circuiting the rest of the body. -/
def IMU.read_word (t : Transport) (reg : ℕ) : Except TransportError ℤ :=
  match t.read MPU6500_ADDR reg with
  | Except.error e => Except.error e
  | Except.ok high =>
    match t.read MPU6500_ADDR (reg + 1) with
    | Except.error e => Except.error e
    | Except.ok low =>
      let val : ℤ := (((high <<< 8) + low : ℕ) : ℤ)
      if 0x8000 ≤ val then Except.ok (val - 0x10000) else Except.ok val

/-- `IMU._moving_average(self, axis, value, window)`:
```
window[axis] = window[axis][1:] + [value]
return sum(window[axis]) / self.N
```
Returns the updated window dict together with the returned float. -/
def IMU.moving_average (N : ℕ) (axis : Axis) (value : ℚ) (window : AxisWindows) :
    AxisWindows × ℚ :=
  let wa := (window.get axis).tail ++ [value]
  (window.set axis wa, wa.sum / (N : ℚ))

/-- The state built by `IMU.__init__` before `_initialize_mpu` runs:
`N = 10`, both window dicts pre-filled with `[0] * N`, and the scale
constants. -/
def IMU.initState : IMUState :=
  { N := 10
    ACCEL_SCALE := ACCEL_SCALE
    GYRO_SCALE := GYRO_SCALE
    accel_window :=
      { X := List.replicate 10 0, Y := List.replicate 10 0, Z := List.replicate 10 0 }
    gyro_window :=
      { X := List.replicate 10 0, Y := List.replicate 10 0, Z := List.replicate 10 0 } }

/-- `IMU.__init__` followed by `IMU._initialize_mpu`: the three register
writes (power management, accel config, gyro config, in source order); a
transport failure propagates and no instance is produced.  The `time.sleep`
and the diagnostic `print(self.i2c.scan())` have no effect on the state. -/
def IMU.init (t : Transport) : Except TransportError IMUState :=
  match t.write MPU6500_ADDR PWR_MGMT_1 0x00 with
  | Except.error e => Except.error e
  | Except.ok _ =>
    match t.write MPU6500_ADDR ACCEL_CONFIG 0x00 with
    | Except.error e => Except.error e
    | Except.ok _ =>
      match t.write MPU6500_ADDR GYRO_CONFIG 0x00 with
      | Except.error e => Except.error e
      | Except.ok _ => Except.ok IMU.initState

/-- `IMU.read_accel_data(self)`:
```
ax = self._read_word(self.ACCEL_XOUT_H) * self.ACCEL_SCALE
ay = self._read_word(self.ACCEL_XOUT_H + 2) * self.ACCEL_SCALE
az = self._read_word(self.ACCEL_XOUT_H + 4) * self.ACCEL_SCALE
ax_filtered = self._moving_average('X', ax, self.accel_window)
ay_filtered = self._moving_average('Y', ay, self.accel_window)
az_filtered = self._moving_average('Z', az, self.accel_window)
return ax_filtered, ay_filtered, az_filtered
```
The three `_moving_average` calls mutate `self.accel_window` in sequence;
the updated state is returned alongside the filtered triple. -/
def IMU.read_accel_data (t : Transport) (s : IMUState) :
    Except TransportError ((ℚ × ℚ × ℚ) × IMUState) :=
  match IMU.read_word t ACCEL_XOUT_H with
  | Except.error e => Except.error e
  | Except.ok rx =>
    match IMU.read_word t (ACCEL_XOUT_H + 2) with
    | Except.error e => Except.error e
    | Except.ok ry =>
      match IMU.read_word t (ACCEL_XOUT_H + 4) with
      | Except.error e => Except.error e
      | Except.ok rz =>
        let ax := (rx : ℚ) * s.ACCEL_SCALE
        let ay := (ry : ℚ) * s.ACCEL_SCALE
        let az := (rz : ℚ) * s.ACCEL_SCALE
        let p1 := IMU.moving_average s.N Axis.X ax s.accel_window
        let p2 := IMU.moving_average s.N Axis.Y ay p1.1
        let p3 := IMU.moving_average s.N Axis.Z az p2.1
        Except.ok ((p1.2, p2.2, p3.2), { s with accel_window := p3.1 })

/-- One iteration of the `__main__` polling loop as a state transformer: on
success the updated instance state is kept, on a raised transport error the
windows are left as they were (the exception propagates before any
`_moving_average` call runs). -/
def pollStep (s : IMUState) (t : Transport) : IMUState :=
  match IMU.read_accel_data t s with
  | Except.ok r => r.2
  | Except.error _ => s

/-- The pure effect of `_initialize_mpu`'s write sequence on the device's
register file (register byte offset ↦ stored byte): `regWrite regs reg val`
models `i2c.writeto_mem(addr, reg, bytes([val]))` on a device whose writes
all succeed. -/
def regWrite (regs : ℕ → ℕ) (reg val : ℕ) : ℕ → ℕ :=
  fun r => if r = reg then val else regs r

/-- The register-file effect of one `_initialize_mpu` call: write `0x00` to
`PWR_MGMT_1`, then to `ACCEL_CONFIG`, then to `GYRO_CONFIG`. -/
def initMpuRegs (regs : ℕ → ℕ) : ℕ → ℕ :=
  regWrite (regWrite (regWrite regs PWR_MGMT_1 0x00) ACCEL_CONFIG 0x00) GYRO_CONFIG 0x00

/-- Transport stub whose reads return the byte `high` at register `reg` and
the byte `low` at `reg + 1`, and whose writes succeed. -/
def pairStub (reg high low : ℕ) : Transport :=
  { read := fun _ r =>
      if r = reg then Except.ok high
      else if r = reg + 1 then Except.ok low
      else Except.error { code := 19 }
    write := fun _ _ _ => Except.ok () }

/-- Transport stub for the end-to-end scenario: bytes `(0x40, 0x00)` at the
X data registers, `(0x00, 0x00)` at Y, `(0xC0, 0x00)` at Z. -/
def endToEndStub : Transport :=
  { read := fun _ r =>
      if r = 0x3B then Except.ok 0x40
      else if r = 0x3C then Except.ok 0x00
      else if r = 0x3D then Except.ok 0x00
      else if r = 0x3E then Except.ok 0x00
      else if r = 0x3F then Except.ok 0xC0
      else if r = 0x40 then Except.ok 0x00
      else Except.error { code := 19 }
    write := fun _ _ _ => Except.ok () }

/-- Transport stub whose reads always fail (bus error 110) and whose writes
succeed. -/
def failStub : Transport :=
  { read := fun _ _ => Except.error { code := 110 }
    write := fun _ _ _ => Except.ok () }

/-- Transport stub on which every operation succeeds (reads return 0). -/
def okStub : Transport :=
  { read := fun _ _ => Except.ok 0
    write := fun _ _ _ => Except.ok () }

/-- `{'X': [0] * N, 'Y': [0] * N, 'Z': [0] * N}`, the pre-filled window dict
built in `IMU.__init__`. -/
def prefilledWindows (N : ℕ) : AxisWindows :=
  { X := List.replicate N 0, Y := List.replicate N 0, Z := List.replicate N 0 }

/-- A finite sequence of `_moving_average` pushes (each one an axis together
with the pushed value) applied to a window dict in order. -/
def pushSeq (N : ℕ) (ps : List (Axis × ℚ)) (w : AxisWindows) : AxisWindows :=
  ps.foldl (fun ww p => (IMU.moving_average N p.1 p.2 ww).1) w

theorem AxisWindows.get_set_same (w : AxisWindows) (a : Axis) (l : List ℚ) :
    (w.set a l).get a = l := by
  cases a <;> rfl

theorem AxisWindows.get_set_other (w : AxisWindows) (a b : Axis) (l : List ℚ)
    (h : b ≠ a) : (w.set a l).get b = w.get b := by
  cases a <;> cases b <;> first | rfl | exact absurd rfl h

theorem IMU.moving_average_get_same (N : ℕ) (a : Axis) (v : ℚ) (w : AxisWindows) :
    ((IMU.moving_average N a v w).1).get a = (w.get a).tail ++ [v] :=
  AxisWindows.get_set_same w a _

theorem IMU.moving_average_get_other (N : ℕ) (a b : Axis) (v : ℚ) (w : AxisWindows)
    (h : b ≠ a) : ((IMU.moving_average N a v w).1).get b = w.get b :=
  AxisWindows.get_set_other w a b _ h

theorem IMU.moving_average_length (N : ℕ) (a : Axis) (v : ℚ) (w : AxisWindows)
    (hN : 1 ≤ N) (hw : ∀ c, (w.get c).length = N) :
    ∀ c, (((IMU.moving_average N a v w).1).get c).length = N := by
  intro c
  by_cases hc : c = a
  · subst hc
    rw [IMU.moving_average_get_same]
    have := hw c
    simp only [List.length_append, List.length_tail, List.length_singleton]
    omega
  · rw [IMU.moving_average_get_other N a c v w hc]
    exact hw c

theorem pushSeq_length (N : ℕ) (ps : List (Axis × ℚ)) (w : AxisWindows)
    (hN : 1 ≤ N) (hw : ∀ c, (w.get c).length = N) :
    ∀ c, ((pushSeq N ps w).get c).length = N := by
  induction ps generalizing w with
  | nil => exact hw
  | cons p ps ih =>
    exact ih ((IMU.moving_average N p.1 p.2 w).1)
      (IMU.moving_average_length N p.1 p.2 w hN hw)

theorem prefilledWindows_length (N : ℕ) : ∀ c, ((prefilledWindows N).get c).length = N := by
  intro c
  cases c <;> simp [prefilledWindows, AxisWindows.get]

theorem pollStep_gyro_window (s : IMUState) (t : Transport) :
    (pollStep s t).gyro_window = s.gyro_window := by
  unfold pollStep IMU.read_accel_data
  cases IMU.read_word t ACCEL_XOUT_H with
  | error e => rfl
  | ok rx =>
    cases IMU.read_word t (ACCEL_XOUT_H + 2) with
    | error e => rfl
    | ok ry =>
      cases IMU.read_word t (ACCEL_XOUT_H + 4) with
      | error e => rfl
      | ok rz => rfl

theorem foldl_pollStep_gyro (ts : List Transport) (s : IMUState) :
    (ts.foldl pollStep s).gyro_window = s.gyro_window := by
  induction ts generalizing s with
  | nil => rfl
  | cons t ts ih => rw [List.foldl_cons, ih, pollStep_gyro_window]

/-- C1: end-to-end poll pipeline.  With the transport stub returning bytes
`(0x40, 0x00)` for X, `(0x00, 0x00)` for Y, `(0xC0, 0x00)` for Z at the
accel-data-high offsets, accel scale `2.0/32768 = ACCEL_SCALE`, and the
three axis windows pre-filled with ten zeros (`IMU.initState`), a single
`read_accel_data` call returns the filtered triple `(0.1, 0.0, -0.1)` —
raw samples 16384, 0, -16384 scaled to 1.0, 0.0, -1.0 and averaged over the
window of size 10 — together with the correspondingly updated windows. -/
theorem C1_end_to_end_poll :
    IMU.read_accel_data endToEndStub IMU.initState =
      Except.ok (((1 / 10 : ℚ), (0 : ℚ), (-(1 / 10) : ℚ)),
        { IMU.initState with
            accel_window :=
              { X := List.replicate 9 0 ++ [1]
                Y := List.replicate 9 0 ++ [0]
                Z := List.replicate 9 0 ++ [-1] } }) := by
  have hx : IMU.read_word endToEndStub ACCEL_XOUT_H = Except.ok 16384 := by rfl
  have hy : IMU.read_word endToEndStub (ACCEL_XOUT_H + 2) = Except.ok 0 := by rfl
  have hz : IMU.read_word endToEndStub (ACCEL_XOUT_H + 4) = Except.ok (-16384) := by rfl
  unfold IMU.read_accel_data
  rw [hx, hy, hz]
  norm_num [IMU.moving_average, IMU.initState, AxisWindows.get, AxisWindows.set,
    ACCEL_SCALE, List.replicate_succ, List.sum_replicate]

/-- C2: sign decoding.  For any register bytes `high, low ≤ 255` served by a
transport at `reg` and `reg + 1`, `_read_word` returns
`(high << 8) | low` when that value is below `0x8000`, and that value minus
`0x10000` otherwise; the result always lies in `[-32768, 32767]`. -/
theorem C2_sign_decoding (reg high low : ℕ) (hh : high ≤ 255) (hl : low ≤ 255) :
    ∃ v : ℤ,
      IMU.read_word (pairStub reg high low) reg = Except.ok v ∧
      ((high * 256 + low < 0x8000 ∧ v = high * 256 + low) ∨
        (0x8000 ≤ high * 256 + low ∧ v = (high * 256 + low : ℤ) - 0x10000)) ∧
      -32768 ≤ v ∧ v ≤ 32767 := by
  have hne : reg + 1 ≠ reg := by omega
  have hshift : high <<< 8 = high * 256 := by
    rw [Nat.shiftLeft_eq]
  unfold IMU.read_word pairStub
  simp only [if_pos rfl, hne, if_false, ite_true, ite_false, if_neg hne, hshift]
  by_cases hbig : 0x8000 ≤ high * 256 + low
  · refine ⟨((high * 256 + low : ℕ) : ℤ) - 0x10000, ?_,
      Or.inr ⟨hbig, by push_cast; ring⟩, by omega, by omega⟩
    rw [if_pos (by exact_mod_cast hbig)]
  · refine ⟨((high * 256 + low : ℕ) : ℤ), ?_,
      Or.inl ⟨by omega, by push_cast; ring⟩, by omega, by omega⟩
    rw [if_neg (by exact_mod_cast hbig)]

/-- C2 witness: the general decoding theorem applied at the concrete pair
`(0x80, 0x00)`, plus the spec's four concrete test vectors evaluated
directly. -/
theorem C2_sign_decoding_witness :
    (∃ v : ℤ,
      IMU.read_word (pairStub ACCEL_XOUT_H 0x80 0x00) ACCEL_XOUT_H = Except.ok v ∧
      ((0x80 * 256 + 0x00 < 0x8000 ∧ v = 0x80 * 256 + 0x00) ∨
        (0x8000 ≤ 0x80 * 256 + 0x00 ∧ v = (0x80 * 256 + 0x00 : ℤ) - 0x10000)) ∧
      -32768 ≤ v ∧ v ≤ 32767) ∧
    IMU.read_word (pairStub 0 0x7F 0xFF) 0 = Except.ok 32767 ∧
    IMU.read_word (pairStub 0 0x80 0x00) 0 = Except.ok (-32768) ∧
    IMU.read_word (pairStub 0 0xFF 0xFF) 0 = Except.ok (-1) ∧
    IMU.read_word (pairStub 0 0x00 0x00) 0 = Except.ok 0 :=
  ⟨C2_sign_decoding ACCEL_XOUT_H 0x80 0x00 (by norm_num) (by norm_num),
    rfl, rfl, rfl, rfl⟩

/-- C3: filter push postcondition.  For a window of length `N`, one
`_moving_average` push replaces the window by its tail with the new value
appended at the back, and the returned float `sum / N` equals the
arithmetic mean of the resulting window. -/
theorem C3_push_postcondition (N : ℕ) (a : Axis) (w : AxisWindows) (v : ℚ)
    (hN : 1 ≤ N) (hw : (w.get a).length = N) :
    ((IMU.moving_average N a v w).1).get a = (w.get a).tail ++ [v] ∧
    (IMU.moving_average N a v w).2 =
      ((w.get a).tail ++ [v]).sum / ((((w.get a).tail ++ [v]).length : ℕ) : ℚ) := by
  have hlen : ((w.get a).tail ++ [v]).length = N := by
    simp only [List.length_append, List.length_tail, List.length_singleton]
    omega
  refine ⟨IMU.moving_average_get_same N a v w, ?_⟩
  rw [hlen]
  rfl

/-- C3 witness: the push postcondition at the concrete window
`{'X': [0]*10, ...}` with `N = 10` and pushed value `1`. -/
theorem C3_push_postcondition_witness :
    ((IMU.moving_average 10 Axis.X 1 (prefilledWindows 10)).1).get Axis.X =
      ((prefilledWindows 10).get Axis.X).tail ++ [1] ∧
    (IMU.moving_average 10 Axis.X 1 (prefilledWindows 10)).2 =
      (((prefilledWindows 10).get Axis.X).tail ++ [1]).sum /
        (((((prefilledWindows 10).get Axis.X).tail ++ [1]).length : ℕ) : ℚ) :=
  C3_push_postcondition 10 Axis.X (prefilledWindows 10) 1 (by norm_num) (by decide)

/-- C4: window length invariant.  For `N ≥ 1`, a push on a length-`N` window
yields a length-`N` window; and starting from the windows pre-filled with
`N` zeros, every axis window still has length exactly `N` after any finite
sequence of pushes. -/
theorem C4_window_length_invariant (N : ℕ) (hN : 1 ≤ N) :
    (∀ (a : Axis) (w : AxisWindows) (v : ℚ), (w.get a).length = N →
      (((IMU.moving_average N a v w).1).get a).length = N) ∧
    (∀ (ps : List (Axis × ℚ)) (a : Axis),
      ((pushSeq N ps (prefilledWindows N)).get a).length = N) := by
  constructor
  · intro a w v hw
    rw [IMU.moving_average_get_same]
    simp only [List.length_append, List.length_tail, List.length_singleton]
    omega
  · intro ps a
    exact pushSeq_length N ps (prefilledWindows N) hN (prefilledWindows_length N) a

/-- C4 witness: the invariant at `N = 3`, for a single push and for a
two-push sequence from the pre-filled windows. -/
theorem C4_window_length_invariant_witness :
    (((IMU.moving_average 3 Axis.X 5 (prefilledWindows 3)).1).get Axis.X).length = 3 ∧
    ((pushSeq 3 [(Axis.X, 1), (Axis.Y, 2)] (prefilledWindows 3)).get Axis.Y).length = 3 :=
  ⟨(C4_window_length_invariant 3 (by norm_num)).1 Axis.X (prefilledWindows 3) 5 (by decide),
    (C4_window_length_invariant 3 (by norm_num)).2 [(Axis.X, 1), (Axis.Y, 2)] Axis.Y⟩

/-- C5 counterexample: the claim asserts that constructing a filter with
window size `N ≤ 0` fails with `ConfigurationError`; in `src/main.py` the
constructor accepts no window-size argument at all, hard-codes `self.N = 10`,
performs no validation, and no `ConfigurationError` exists anywhere in the
source (the only failure mode of `__init__` is a propagated transport
error).  Concretely: on a transport whose operations all succeed, the
constructor just succeeds and yields the fixed window size 10. -/
theorem C5_counterexample :
    IMU.init okStub = Except.ok IMU.initState ∧ IMU.initState.N = 10 :=
  ⟨rfl, rfl⟩

/-- C5 (amended): construction takes no window-size parameter and performs no
window-size validation: whenever it produces an instance the window size is
the hard-coded constant `10` (in particular positive), and whenever it fails
the error is one propagated from a transport write of the initialization
sequence — never a configuration check. -/
theorem C5_no_window_size_validation (t : Transport) :
    (∀ s, IMU.init t = Except.ok s → s.N = 10 ∧ 1 ≤ s.N) ∧
    (∀ e, IMU.init t = Except.error e →
      t.write MPU6500_ADDR PWR_MGMT_1 0x00 = Except.error e ∨
      t.write MPU6500_ADDR ACCEL_CONFIG 0x00 = Except.error e ∨
      t.write MPU6500_ADDR GYRO_CONFIG 0x00 = Except.error e) := by
  unfold IMU.init
  cases h1 : t.write MPU6500_ADDR PWR_MGMT_1 0x00 with
  | error e1 =>
    refine ⟨fun s hs => by simp at hs, fun e he => ?_⟩
    injection he with h
    subst h
    exact Or.inl rfl
  | ok u1 =>
    cases h2 : t.write MPU6500_ADDR ACCEL_CONFIG 0x00 with
    | error e2 =>
      refine ⟨fun s hs => by simp at hs, fun e he => ?_⟩
      injection he with h
      subst h
      exact Or.inr (Or.inl rfl)
    | ok u2 =>
      cases h3 : t.write MPU6500_ADDR GYRO_CONFIG 0x00 with
      | error e3 =>
        refine ⟨fun s hs => by simp at hs, fun e he => ?_⟩
        injection he with h
        subst h
        exact Or.inr (Or.inr rfl)
      | ok u3 =>
        refine ⟨fun s hs => ?_, fun e he => by simp at he⟩
        injection hs with h
        subst h
        exact ⟨rfl, by norm_num [IMU.initState]⟩

/-- C5 witness: the amended theorem applied to the all-success transport,
whose construction result is `IMU.initState`. -/
theorem C5_no_window_size_validation_witness :
    IMU.initState.N = 10 ∧ 1 ≤ IMU.initState.N :=
  (C5_no_window_size_validation okStub).1 IMU.initState rfl

/-- C6: transport failure propagation and atomicity of the pair read.  If
the transport read of the high byte fails, `_read_word` fails with exactly
that transport error — no value is produced, so no state exists in which
only one of the two bytes contributes to a returned sample. -/
theorem C6_transport_failure_propagation (t : Transport) (reg : ℕ)
    (e : TransportError) (h : t.read MPU6500_ADDR reg = Except.error e) :
    IMU.read_word t reg = Except.error e := by
  unfold IMU.read_word
  rw [h]

/-- C6 witness: the propagation theorem at the always-failing transport stub
and the accel X data register. -/
theorem C6_transport_failure_propagation_witness :
    failStub.read MPU6500_ADDR ACCEL_XOUT_H = Except.error { code := 110 } ∧
    IMU.read_word failStub ACCEL_XOUT_H = Except.error { code := 110 } :=
  ⟨rfl, C6_transport_failure_propagation failStub ACCEL_XOUT_H { code := 110 } rfl⟩

/-- C7: scaling.  The raw sample 16384 multiplied by the accelerometer scale
factor `ACCEL_SCALE = 2.0 / 32768` yields the physical value 1.0, exactly —
in particular within the claimed tolerance of 1e-9. -/
theorem C7_scaling :
    (16384 : ℚ) * ACCEL_SCALE = 1 ∧
    |(16384 : ℚ) * ACCEL_SCALE - 1| ≤ 1 / 1000000000 := by
  constructor <;> norm_num [ACCEL_SCALE]

/-- C8: axis independence.  A `_moving_average` push on axis `a` leaves the
window of every other axis `b ≠ a` unchanged, and the filtered output is a
function only of the pushed axis's own window contents, the new value, and
the filter constant `N`: it equals `sum(window[a][1:] + [v]) / N`. -/
theorem C8_axis_independence (N : ℕ) (a b : Axis) (v : ℚ) (w : AxisWindows)
    (hba : b ≠ a) :
    ((IMU.moving_average N a v w).1).get b = w.get b ∧
    (IMU.moving_average N a v w).2 = ((w.get a).tail ++ [v]).sum / (N : ℚ) :=
  ⟨IMU.moving_average_get_other N a b v w hba, rfl⟩

/-- C8 witness: a push on X with `N = 10` leaves the Y window unchanged and
returns the X-window mean formula. -/
theorem C8_axis_independence_witness :
    ((IMU.moving_average 10 Axis.X 1 (prefilledWindows 10)).1).get Axis.Y =
      (prefilledWindows 10).get Axis.Y ∧
    (IMU.moving_average 10 Axis.X 1 (prefilledWindows 10)).2 =
      (((prefilledWindows 10).get Axis.X).tail ++ [1]).sum / ((10 : ℕ) : ℚ) :=
  C8_axis_independence 10 Axis.X Axis.Y 1 (prefilledWindows 10) (by decide)

/-- C9: idempotent initialization.  On a device whose writes all succeed,
running `_initialize_mpu`'s register-write sequence twice leaves the
device's register file (power management, accel full-scale range, gyro
full-scale range — and every other register) in exactly the same state as
running it once. -/
theorem C9_idempotent_initialization (regs : ℕ → ℕ) :
    initMpuRegs (initMpuRegs regs) = initMpuRegs regs := by
  funext r
  simp only [initMpuRegs, regWrite]
  split_ifs <;> rfl

/-- C10: the public accelerometer read path never touches the gyroscope
windows.  After any finite sequence of `read_accel_data` polls starting from
the freshly constructed state, `gyro_window` is exactly its initial value:
three axis lists of ten zeros. -/
theorem C10_gyro_window_untouched (ts : List Transport) :
    (ts.foldl pollStep IMU.initState).gyro_window =
      { X := List.replicate 10 0, Y := List.replicate 10 0,
        Z := List.replicate 10 0 } :=
  (foldl_pollStep_gyro ts IMU.initState).trans rfl
